import Mathlib

/-!
Shallow embedding of the premium-entitlement core of the
digital-life-lessons server (src/index.js, primary variant).

The document store is modelled as explicit lists of records; a MongoDB
`updateOne` updates the first document matching the filter, `insertOne`
appends, `deleteOne` removes the first match, and an upsert with
`$setOnInsert` inserts only when no document matches the filter.
Timestamps (`new Date()`) are modelled by an explicit `now : Nat`
parameter passed to each handler.  The Stripe client is modelled by the
outcome of its calls: `stripe.webhooks.constructEvent` as an
`Except String StripeEvent` (an `Except.error` is a signature-verification
failure), `stripe.checkout.sessions.retrieve` as a function
`String → Except String StripeSession`, and
`stripe.checkout.sessions.create` as a function
`SessionCreateParams → Except String CreatedSession`.
-/

namespace DLL

/-- A document of the `users` collection (src/index.js `usersCollection`). -/
structure User where
  uid : String
  email : String
  name : String
  photoURL : String
  role : String
  isPremium : Bool
  createdAt : Nat
  updatedAt : Nat
  deriving Repr, DecidableEq

/-- A document of the `payments` collection, as written by the webhook
handler (lines 73-82) and the `/payments/confirm` handler (lines 643-658). -/
structure PaymentRecord where
  uid : String
  email : Option String
  stripeSessionId : String
  stripePaymentIntentId : String
  amount : Nat
  currency : String
  status : String
  createdAt : Nat
  deriving Repr, DecidableEq

/-- A document of the `comments` collection; `id` models the `_id` ObjectId
rendered as a string. -/
structure Comment where
  id : String
  lessonId : String
  uid : String
  text : String
  createdAt : Nat
  deriving Repr, DecidableEq

/-- The fields of a provider checkout-session object consumed by the
handlers (`session.id`, `payment_status`, `metadata.uid`, `metadata.email`,
`customer_email`, `payment_intent`, `amount_total`, `currency`). -/
structure StripeSession where
  id : String
  payment_status : String
  metadata_uid : Option String
  metadata_email : Option String
  customer_email : Option String
  payment_intent : String
  amount_total : Nat
  currency : String
  deriving Repr, DecidableEq

/-- A verified Stripe event as returned by
`stripe.webhooks.constructEvent`; `session` is `event.data.object`. -/
structure StripeEvent where
  type : String
  session : StripeSession
  deriving Repr, DecidableEq

/-- The request sent to `stripe.checkout.sessions.create` by the
`/create-checkout-session` handler (lines 684-706). -/
structure SessionCreateParams where
  mode : String
  customer_email : String
  currency : String
  product_name : String
  product_description : String
  unit_amount : Nat
  quantity : Nat
  metadata_uid : String
  metadata_email : String
  success_url : String
  cancel_url : String
  deriving Repr, DecidableEq

/-- The provider's reply to a session-creation request; only `url` is read. -/
structure CreatedSession where
  url : Option String
  deriving Repr, DecidableEq

/-- The store state: the readiness flag `dbReady` plus the collections the
payment core touches, and the list of checkout sessions created at the
provider (to state that a handler did or did not create one). -/
structure DB where
  dbReady : Bool
  users : List User
  payments : List PaymentRecord
  comments : List Comment
  providerSessions : List SessionCreateParams
  deriving Repr, DecidableEq

/-- An HTTP response of one of the modelled handlers. -/
inductive Resp where
  | error (status : Nat) (message : String)
  | sendText (status : Nat) (text : String)
  | received
  | confirmOk (ok : Bool) (isPremium : Bool)
  | checkoutUrl (url : Option String)
  | success
  deriving Repr, DecidableEq

/-- The HTTP status code of a response (res.json without res.status is 200). -/
def Resp.statusCode : Resp → Nat
  | .error s _ => s
  | .sendText s _ => s
  | _ => 200

/-! ## Generic document-store operations -/

/-- MongoDB `updateOne`: apply `f` to the first element matching `p`. -/
def updateFirst (p : α → Bool) (f : α → α) : List α → List α
  | [] => []
  | x :: xs => if p x then f x :: xs else x :: updateFirst p f xs

/-- MongoDB `deleteOne`: remove the first element matching `p`. -/
def deleteFirst (p : α → Bool) : List α → List α
  | [] => []
  | x :: xs => if p x then xs else x :: deleteFirst p xs

/-- JavaScript `a || b` on optional strings: `""` and `undefined` are falsy
(this is `session?.metadata?.email || session.customer_email`). -/
def jsOrStr : Option String → Option String → Option String
  | some a, b => if a = "" then b else some a
  | none, b => b

/-- `usersCollection.findOne({ uid })`. -/
def findUser (s : DB) (uid : String) : Option User :=
  s.users.find? (fun u => u.uid == uid)

/-! ## Webhook handler — `POST /webhook` (src/index.js lines 44-93) -/

/-- The `$set` of the two payment paths' user update
(`{isPremium: true, updatedAt: new Date()}`). -/
def setPremium (now : Nat) (u : User) : User :=
  { u with isPremium := true, updatedAt := now }

/-- The `$set` of `POST /users/upsert`
(`{uid, email, name, photoURL, updatedAt}`). -/
def setProfile (now : Nat) (uid email name photoURL : String) (u : User) : User :=
  { u with uid := uid, email := email, name := name, photoURL := photoURL,
           updatedAt := now }

/-- The `$set` of `PATCH /admin/users/role` (`{role, updatedAt}`). -/
def setRole (now : Nat) (role : String) (u : User) : User :=
  { u with role := role, updatedAt := now }

/-- The PaymentRecord document built by both payment paths. -/
def mkPaymentRecord (now : Nat) (uid : String) (email : Option String)
    (sess : StripeSession) : PaymentRecord :=
  { uid := uid
    email := email
    stripeSessionId := sess.id
    stripePaymentIntentId := sess.payment_intent
    amount := sess.amount_total
    currency := sess.currency
    status := "paid"
    createdAt := now }

/-- The webhook handler's apply step (lines 62-86): on a
`checkout.session.completed` event with a truthy `metadata.uid`, set the
user premium (`updateOne` by `uid`, `$set`) and `insertOne` a new
PaymentRecord.  The insert is unconditional: it appends even when a record
with the same `stripeSessionId` already exists. -/
def webhookApply (now : Nat) (s : DB) (sess : StripeSession) : DB :=
  match sess.metadata_uid with
  | none => s
  | some uid =>
    if uid = "" then s
    else
      let email := jsOrStr sess.metadata_email sess.customer_email
      let s1 := { s with users := updateFirst (fun u => u.uid == uid) (setPremium now) s.users }
      { s1 with payments := s1.payments ++ [mkPaymentRecord now uid email sess] }

/-- `POST /webhook`: readiness gate, then signature verification
(`constructResult` is the outcome of `stripe.webhooks.constructEvent`),
then the apply step; always acknowledges with `{received: true}` once
the signature verified. -/
def webhookStep (now : Nat) (s : DB) (constructResult : Except String StripeEvent) :
    DB × Resp :=
  if s.dbReady = false then (s, Resp.error 503 "DB not ready yet")
  else
    match constructResult with
    | Except.error msg => (s, Resp.sendText 400 ("Webhook Error: " ++ msg))
    | Except.ok event =>
      if event.type = "checkout.session.completed" then
        (webhookApply now s event.session, Resp.received)
      else (s, Resp.received)

/-! ## Client confirmation — `POST /payments/confirm` (lines 620-664) -/

/-- The `/payments/confirm` payments write (lines 643-658):
`updateOne({stripeSessionId}, {$setOnInsert: ...}, {upsert: true})` —
inserts the record only when no document with that `stripeSessionId`
exists; otherwise it is a no-op. -/
def confirmPaymentsUpsert (now : Nat) (s : DB) (uid : String)
    (email : Option String) (sess : StripeSession) : DB :=
  if s.payments.any (fun p => p.stripeSessionId == sess.id) then s
  else { s with payments := s.payments ++ [mkPaymentRecord now uid email sess] }

/-- `POST /payments/confirm`: readiness gate, `sessionId` required,
retrieve the session from the provider, reject unless
`payment_status = "paid"`, require a truthy `metadata.uid`, then set the
user premium and upsert the PaymentRecord; responds
`{ok: true, isPremium: true}`. -/
def paymentsConfirm (now : Nat) (retrieve : String → Except String StripeSession)
    (s : DB) (sessionId : String) : DB × Resp :=
  if s.dbReady = false then (s, Resp.error 503 "DB not ready")
  else if sessionId = "" then (s, Resp.error 400 "sessionId required")
  else
    match retrieve sessionId with
    | Except.error msg => (s, Resp.error 500 msg)
    | Except.ok sess =>
      if sess.payment_status ≠ "paid" then
        (s, Resp.error 400 "Payment not completed yet")
      else
        match sess.metadata_uid with
        | none => (s, Resp.error 400 "No uid in session metadata")
        | some uid =>
          if uid = "" then (s, Resp.error 400 "No uid in session metadata")
          else
            let email := jsOrStr sess.metadata_email sess.customer_email
            let s1 := { s with users := updateFirst (fun u => u.uid == uid) (setPremium now) s.users }
            (confirmPaymentsUpsert now s1 uid email sess, Resp.confirmOk true true)

/-! ## Session creation — `POST /create-checkout-session` (lines 667-712) -/

/-- The create-session request body (lines 684-706): fixed line item
(1500 * 100 of "bdt", fixed name/description), `metadata: {uid, email}`,
success/cancel URLs derived from the resolved client URL. -/
def mkCheckoutParams (uid email clientUrl : String) : SessionCreateParams :=
  { mode := "payment"
    customer_email := email
    currency := "bdt"
    product_name := "Digital Life Lessons — Premium (Lifetime)"
    product_description := "One-time payment for lifetime premium access."
    unit_amount := 1500 * 100
    quantity := 1
    metadata_uid := uid
    metadata_email := email
    success_url := clientUrl ++ "/payment-success?session_id=\x7bCHECKOUT_SESSION_ID\x7d"
    cancel_url := clientUrl ++ "/payment-cancel" }

/-- `POST /create-checkout-session`: readiness gate, `uid`/`email`
required, 404 when the user is unknown, 400 when already premium,
otherwise create the provider session and respond with its url.
`clientUrl` is the resolved `req.headers.origin || CLIENT_URL ||
"http://localhost:5173"`; `create` is `stripe.checkout.sessions.create`. -/
def createCheckoutSession (s : DB)
    (create : SessionCreateParams → Except String CreatedSession)
    (uid email clientUrl : String) : DB × Resp :=
  if s.dbReady = false then (s, Resp.error 503 "DB not ready")
  else if uid = "" ∨ email = "" then (s, Resp.error 400 "uid & email required")
  else
    match findUser s uid with
    | none => (s, Resp.error 404 "User not found. Upsert first.")
    | some user =>
      if user.isPremium then (s, Resp.error 400 "Already premium")
      else
        let p := mkCheckoutParams uid email clientUrl
        match create p with
        | Except.error msg => (s, Resp.error 500 msg)
        | Except.ok cs =>
          ({ s with providerSessions := s.providerSessions ++ [p] },
           Resp.checkoutUrl cs.url)

/-! ## User upsert — `POST /users/upsert` (lines 161-182) -/

/-- `POST /users/upsert`: `updateOne({uid}, {$set: {uid, email, name,
photoURL, updatedAt}, $setOnInsert: {role: "user", isPremium: false,
createdAt}}, {upsert: true})`.  On an existing user only the `$set`
fields change; on insert the `$setOnInsert` fields are added. -/
def usersUpsert (now : Nat) (s : DB) (uid email name photoURL : String) :
    DB × Resp :=
  if s.dbReady = false then (s, Resp.error 503 "DB not ready")
  else if uid = "" ∨ email = "" then (s, Resp.error 400 "uid & email required")
  else
    if s.users.any (fun u => u.uid == uid) then
      ({ s with users := updateFirst (fun u => u.uid == uid) (setProfile now uid email name photoURL) s.users },
       Resp.success)
    else
      ({ s with users := s.users ++
          [{ uid := uid, email := email, name := name, photoURL := photoURL,
             updatedAt := now, role := "user", isPremium := false,
             createdAt := now }] },
       Resp.success)

/-! ## Admin role change and user deletion (lines 938-964) -/

/-- `PATCH /admin/users/role`: `updateOne({uid}, {$set: {role, updatedAt}})`
after validating `role ∈ {"admin", "user"}`. -/
def adminUsersRole (now : Nat) (s : DB) (uid role : String) : DB × Resp :=
  if s.dbReady = false then (s, Resp.error 503 "DB not ready")
  else if uid = "" ∨ (role ≠ "admin" ∧ role ≠ "user") then
    (s, Resp.error 400 "uid and role(admin/user) required")
  else
    ({ s with users := updateFirst (fun u => u.uid == uid) (setRole now role) s.users },
     Resp.success)

/-- `DELETE /admin/users/:uid`: `deleteOne({uid})`. -/
def adminUsersDelete (s : DB) (uid : String) : DB × Resp :=
  if s.dbReady = false then (s, Resp.error 503 "DB not ready")
  else ({ s with users := deleteFirst (fun u => u.uid == uid) s.users },
        Resp.success)

/-! ## Comment deletion — `DELETE /comments/:id` (lines 601-617) -/

/-- `ObjectId.isValid` on a string: a 12-character string or a
24-character hex string (src/index.js `safeObjectId`, lines 27-35;
returns `null` for a falsy or invalid id). -/
def safeObjectId (id : String) : Option String :=
  if id = "" then none
  else if id.length = 12 ∨ (id.length = 24 ∧ id.toList.all (fun c => c.isDigit ∨
      c ∈ ['a','b','c','d','e','f','A','B','C','D','E','F'])) then some id
  else none

/-- `DELETE /comments/:id`: requires `uid` (query) and a valid id; 404 when
no comment has that id, 403 when the stored comment's `uid` differs from
the requester's, otherwise `deleteOne({_id})`. -/
def commentsDelete (s : DB) (uid : String) (idParam : String) : DB × Resp :=
  if uid = "" then (s, Resp.error 400 "uid required")
  else
    match safeObjectId idParam with
    | none => (s, Resp.error 400 "Invalid comment id")
    | some oid =>
      match s.comments.find? (fun c => c.id == oid) with
      | none => (s, Resp.error 404 "Not found")
      | some c =>
        if c.uid ≠ uid then (s, Resp.error 403 "Forbidden")
        else ({ s with comments := deleteFirst (fun c2 => c2.id == oid) s.comments },
              Resp.success)

/-! ## Operation sequences (for the premium-monotonicity invariant) -/

/-- One entitlement-relevant operation of the system: user upsert, webhook
delivery, client confirmation, or admin role change. -/
inductive Op where
  | upsert (now : Nat) (uid email name photoURL : String)
  | webhook (now : Nat) (constructResult : Except String StripeEvent)
  | confirm (now : Nat) (retrieve : String → Except String StripeSession)
      (sessionId : String)
  | roleChange (now : Nat) (uid role : String)

/-- The state transition of one operation. -/
def stepOp (s : DB) : Op → DB
  | Op.upsert now uid email name photoURL =>
      (usersUpsert now s uid email name photoURL).fst
  | Op.webhook now r => (webhookStep now s r).fst
  | Op.confirm now retrieve sid => (paymentsConfirm now retrieve s sid).fst
  | Op.roleChange now uid role => (adminUsersRole now s uid role).fst

/-- Run a sequence of operations left to right. -/
def runOps (s : DB) : List Op → DB
  | [] => s
  | op :: ops => runOps (stepOp s op) ops

/-- The user identified by `uid` exists (first match) and is premium. -/
def premiumIn (users : List User) (uid : String) : Prop :=
  ∃ u, users.find? (fun x => x.uid == uid) = some u ∧ u.isPremium = true

/-- `premiumIn` on the state's users collection. -/
def premiumHolds (s : DB) (uid : String) : Prop :=
  premiumIn s.users uid

/-- The number of PaymentRecords with a given `stripeSessionId`. -/
def countPayments (s : DB) (sid : String) : Nat :=
  (s.payments.filter (fun p => p.stripeSessionId == sid)).length

/-! ## Generic lemmas about the store operations -/

/-- `updateOne` on a filter that matches nothing is a no-op. -/
theorem updateFirst_no_match (p : α → Bool) (f : α → α) (l : List α)
    (h : l.find? p = none) : updateFirst p f l = l := by
  induction l with
  | nil => rfl
  | cons x xs ih =>
    by_cases hp : p x
    · rw [List.find?_cons_of_pos _ hp] at h; exact absurd h (by simp)
    · rw [List.find?_cons_of_neg _ hp] at h
      simp [updateFirst, hp, ih h]

/-- A `find?` hit in the left list survives appending on the right. -/
theorem find_append_left {p : α → Bool} {l1 : List α} (l2 : List α) {a : α}
    (h : l1.find? p = some a) : (l1 ++ l2).find? p = some a := by
  rw [List.find?_append, h]; rfl

/-- The `/payments/confirm` payments upsert never touches the users
collection. -/
theorem confirmPaymentsUpsert_users (now : Nat) (s : DB) (uid : String)
    (email : Option String) (sess : StripeSession) :
    (confirmPaymentsUpsert now s uid email sess).users = s.users := by
  unfold confirmPaymentsUpsert
  split <;> rfl

/-- Unfolding equation of `updateFirst` on a matching head. -/
theorem updateFirst_cons_pos {p : α → Bool} {f : α → α} {x : α} {xs : List α}
    (h : p x = true) : updateFirst p f (x :: xs) = f x :: xs := by
  simp [updateFirst, h]

/-- Unfolding equation of `updateFirst` on a non-matching head. -/
theorem updateFirst_cons_neg {p : α → Bool} {f : α → α} {x : α} {xs : List α}
    (h : ¬ p x = true) : updateFirst p f (x :: xs) = x :: updateFirst p f xs := by
  simp [updateFirst, h]

/-- `premiumIn` is preserved by any `updateFirst` whose update function
keeps the `uid` of a matched document and keeps `isPremium` set. -/
theorem premiumIn_updateFirst (q : User → Bool) (f : User → User) (uid : String)
    (hid : ∀ u, q u = true → (f u).uid = u.uid)
    (hp : ∀ u, q u = true → u.isPremium = true → (f u).isPremium = true) :
    ∀ l : List User, premiumIn l uid → premiumIn (updateFirst q f l) uid := by
  intro l
  induction l with
  | nil => exact fun h => h
  | cons x xs ih =>
    intro h
    obtain ⟨u, hfind, hprem⟩ := h
    by_cases hq : q x
    · rw [updateFirst_cons_pos hq]
      by_cases hx : (x.uid == uid) = true
      · rw [List.find?_cons_of_pos (p := fun (y : User) => y.uid == uid) _ hx] at hfind
        have hxu : x = u := by injection hfind
        subst hxu
        have hfx : ((f x).uid == uid) = true := by rw [hid x hq]; exact hx
        exact ⟨f x, List.find?_cons_of_pos _ hfx, hp x hq hprem⟩
      · rw [List.find?_cons_of_neg (p := fun (y : User) => y.uid == uid) _ hx] at hfind
        have hfx : ¬ (((f x).uid == uid) = true) := by rw [hid x hq]; exact hx
        exact ⟨u, by
          rw [List.find?_cons_of_neg (p := fun (y : User) => y.uid == uid) _ hfx]
          exact hfind, hprem⟩
    · rw [updateFirst_cons_neg hq]
      by_cases hx : (x.uid == uid) = true
      · rw [List.find?_cons_of_pos (p := fun (y : User) => y.uid == uid) _ hx] at hfind
        have hxu : x = u := by injection hfind
        subst hxu
        exact ⟨x, List.find?_cons_of_pos _ hx, hprem⟩
      · rw [List.find?_cons_of_neg (p := fun (y : User) => y.uid == uid) _ hx] at hfind
        obtain ⟨u2, hf2, hp2⟩ := ih ⟨u, hfind, hprem⟩
        exact ⟨u2, by
          rw [List.find?_cons_of_neg (p := fun (y : User) => y.uid == uid) _ hx]
          exact hf2, hp2⟩

/-- `premiumIn` is preserved by inserting new documents at the end. -/
theorem premiumIn_append (l1 l2 : List User) (uid : String)
    (h : premiumIn l1 uid) : premiumIn (l1 ++ l2) uid := by
  obtain ⟨u, hfind, hprem⟩ := h
  exact ⟨u, find_append_left l2 hfind, hprem⟩

/-! ## Concrete fixtures (the spec's scenario: user u1, session sess_123) -/

/-- A paid checkout session for user `u1` (the spec's `sess_123`). -/
def sessEx : StripeSession :=
  { id := "sess_123", payment_status := "paid", metadata_uid := some "u1",
    metadata_email := some "email1", customer_email := none,
    payment_intent := "pi_1", amount_total := 150000, currency := "bdt" }

/-- A non-premium user `u1`. -/
def userEx : User :=
  { uid := "u1", email := "email1", name := "", photoURL := "", role := "user",
    isPremium := false, createdAt := 0, updatedAt := 0 }

/-- A ready store holding only `u1`. -/
def dbEx : DB :=
  { dbReady := true, users := [userEx], payments := [], comments := [],
    providerSessions := [] }

/-- The same store before initialization completed. -/
def dbNotReady : DB :=
  { dbEx with dbReady := false }

/-- A verified `checkout.session.completed` event for `sess_123`. -/
def evEx : StripeEvent :=
  { type := "checkout.session.completed", session := sessEx }

/-- A provider that knows exactly the session `sess_123`. -/
def retrieveEx : String → Except String StripeSession :=
  fun sid => if sid = "sess_123" then Except.ok sessEx else Except.error "No such session"

/-- A session the provider reports as not yet paid. -/
def sessUnpaid : StripeSession :=
  { sessEx with id := "sess_u", payment_status := "unpaid" }

/-- A provider that knows exactly the unpaid session `sess_u`. -/
def retrieveUnpaid : String → Except String StripeSession :=
  fun sid => if sid = "sess_u" then Except.ok sessUnpaid else Except.error "No such session"

/-- A paid session whose `metadata.uid` (`"ghost"`) matches no user of `dbEx`. -/
def sessGhost : StripeSession :=
  { sessEx with id := "sess_g", metadata_uid := some "ghost",
                metadata_email := some "ghost@example.com" }

/-- A provider that knows exactly the session `sess_g`. -/
def retrieveGhost : String → Except String StripeSession :=
  fun sid => if sid = "sess_g" then Except.ok sessGhost else Except.error "No such session"

/-- The provider's reply to a session-creation request in the fixtures. -/
def csEx : CreatedSession :=
  { url := some "https://checkout.example/pay" }

/-- A provider whose session creation always succeeds with `csEx`. -/
def createEx : SessionCreateParams → Except String CreatedSession :=
  fun _ => Except.ok csEx

/-- A completed-checkout event whose session metadata carries no `uid`. -/
def evNoUid : StripeEvent :=
  { type := "checkout.session.completed"
    session := { sessEx with metadata_uid := none } }

/-! ## C1 — idempotence of the mark-paid transition -/

/-- C1: the claim fails on the webhook path.  The webhook handler's apply
step uses `paymentsCollection.insertOne` with no existence check (lines
73-82): delivering the same verified `checkout.session.completed` event for
`sess_123` twice leaves TWO PaymentRecords with that `stripeSessionId`,
not one — the second invocation inserts a new record.  (The
`/payments/confirm` path, by contrast, upserts with `$setOnInsert` and a
second call inserts nothing, as the fourth conjunct shows.)  This is the
duplicate-insert behaviour the spec's design notes call a latent bug. -/
theorem webhook_second_delivery_inserts_again :
    countPayments ((webhookStep 0 dbEx (Except.ok evEx)).fst) "sess_123" = 1 ∧
    countPayments ((webhookStep 1 ((webhookStep 0 dbEx (Except.ok evEx)).fst)
      (Except.ok evEx)).fst) "sess_123" = 2 ∧
    countPayments ((paymentsConfirm 0 retrieveEx dbEx "sess_123").fst) "sess_123" = 1 ∧
    countPayments ((paymentsConfirm 1 retrieveEx
      ((paymentsConfirm 0 retrieveEx dbEx "sess_123").fst) "sess_123").fst) "sess_123" = 1 := by
  decide

/-! ## C2 — convergence of the two paths -/

/-- C2: the claim fails in the client-path-first order.  Webhook alone and
confirm alone each leave one PaymentRecord for `sess_123`, and
webhook-then-confirm also converges to one; but confirm-then-webhook
leaves TWO PaymentRecords, because the webhook's `insertOne` does not
check for the record the confirm path already upserted (lines 73-82 vs
643-658). -/
theorem confirm_then_webhook_duplicates_record :
    countPayments ((webhookStep 0 dbEx (Except.ok evEx)).fst) "sess_123" = 1 ∧
    countPayments ((paymentsConfirm 0 retrieveEx dbEx "sess_123").fst) "sess_123" = 1 ∧
    countPayments ((paymentsConfirm 1 retrieveEx
      ((webhookStep 0 dbEx (Except.ok evEx)).fst) "sess_123").fst) "sess_123" = 1 ∧
    countPayments ((webhookStep 1 ((paymentsConfirm 0 retrieveEx dbEx
      "sess_123").fst) (Except.ok evEx)).fst) "sess_123" = 2 := by
  decide

/-! ## C3 — invalid webhook signature -/

/-- C3: when `stripe.webhooks.constructEvent` fails (invalid signature over
the raw body), the ready-store webhook handler responds 400 and the entire
store state — in particular the users and payments collections — is
unchanged, whatever the request body claimed. -/
theorem webhook_bad_signature_rejected_no_write (now : Nat) (s : DB) (msg : String)
    (hready : s.dbReady = true) :
    (webhookStep now s (Except.error msg)).fst = s ∧
    ((webhookStep now s (Except.error msg)).snd).statusCode = 400 := by
  simp [webhookStep, hready, Resp.statusCode]

/-- C3 witness: a concrete invalid-signature delivery against `dbEx`. -/
theorem webhook_bad_signature_rejected_no_write_witness :
    (webhookStep 0 dbEx (Except.error "No signatures found")).fst = dbEx ∧
    ((webhookStep 0 dbEx (Except.error "No signatures found")).snd).statusCode = 400 :=
  webhook_bad_signature_rejected_no_write 0 dbEx "No signatures found" (by decide)

/-! ## C5 — unpaid session rejected by /payments/confirm -/

/-- C5: when the provider-retrieved session's `payment_status` is not
"paid", `/payments/confirm` responds 400 ("Payment not completed yet") and
performs no write at all: the result state is exactly the input state, so
no user's `isPremium` is set and no PaymentRecord is written. -/
theorem confirm_unpaid_rejected_no_write (now : Nat)
    (retrieve : String → Except String StripeSession) (s : DB) (sid : String)
    (sess : StripeSession) (hready : s.dbReady = true) (hsid : sid ≠ "")
    (hret : retrieve sid = Except.ok sess)
    (hnp : sess.payment_status ≠ "paid") :
    paymentsConfirm now retrieve s sid = (s, Resp.error 400 "Payment not completed yet") := by
  simp [paymentsConfirm, hready, hsid, hret, hnp]

/-- C5 witness: confirming the unpaid session `sess_u` against `dbEx`. -/
theorem confirm_unpaid_rejected_no_write_witness :
    paymentsConfirm 0 retrieveUnpaid dbEx "sess_u" =
      (dbEx, Resp.error 400 "Payment not completed yet") :=
  confirm_unpaid_rejected_no_write 0 retrieveUnpaid dbEx "sess_u" sessUnpaid
    (by decide) (by decide) rfl (by decide)

/-! ## C6 — readiness gating -/

/-- C6: while `dbReady` is false, each of the three entitlement-affecting
handlers (`POST /webhook`, `POST /payments/confirm`,
`POST /create-checkout-session`) responds 503 and leaves the state exactly
as it was, for every possible request. -/
theorem not_ready_rejected_503_no_write (s : DB) (hnr : s.dbReady = false)
    (now : Nat) (r : Except String StripeEvent)
    (retrieve : String → Except String StripeSession) (sid : String)
    (create : SessionCreateParams → Except String CreatedSession)
    (uid email clientUrl : String) :
    webhookStep now s r = (s, Resp.error 503 "DB not ready yet") ∧
    paymentsConfirm now retrieve s sid = (s, Resp.error 503 "DB not ready") ∧
    createCheckoutSession s create uid email clientUrl =
      (s, Resp.error 503 "DB not ready") := by
  refine ⟨?_, ?_, ?_⟩ <;>
    simp [webhookStep, paymentsConfirm, createCheckoutSession, hnr]

/-- C6 witness: concrete requests against the not-yet-ready store. -/
theorem not_ready_rejected_503_no_write_witness :
    webhookStep 0 dbNotReady (Except.ok evEx) =
      (dbNotReady, Resp.error 503 "DB not ready yet") ∧
    paymentsConfirm 0 retrieveEx dbNotReady "sess_123" =
      (dbNotReady, Resp.error 503 "DB not ready") ∧
    createCheckoutSession dbNotReady createEx
      "u1" "email1" "http://localhost:5173" =
      (dbNotReady, Resp.error 503 "DB not ready") :=
  not_ready_rejected_503_no_write dbNotReady (by decide) 0 (Except.ok evEx)
    retrieveEx "sess_123" createEx "u1" "email1" "http://localhost:5173"

/-! ## C8 — completed event without a uid -/

/-- C8: a verified `checkout.session.completed` event whose session
metadata has no `uid` writes nothing — the state is returned unchanged —
and the handler still acknowledges with 200 `{received: true}`. -/
theorem webhook_no_uid_ack_no_write (now : Nat) (s : DB) (ev : StripeEvent)
    (hready : s.dbReady = true)
    (htype : ev.type = "checkout.session.completed")
    (huid : ev.session.metadata_uid = none) :
    webhookStep now s (Except.ok ev) = (s, Resp.received) ∧
    Resp.received.statusCode = 200 := by
  constructor
  · simp [webhookStep, hready, htype, webhookApply, huid]
  · rfl

/-- C8 witness: a completed event for a session with empty metadata. -/
theorem webhook_no_uid_ack_no_write_witness :
    webhookStep 0 dbEx (Except.ok evNoUid) = (dbEx, Resp.received) ∧
    Resp.received.statusCode = 200 :=
  webhook_no_uid_ack_no_write 0 dbEx evNoUid (by decide) rfl rfl

/-! ## C4 — unknown uid on /payments/confirm -/

/-- C4 counterexample: confirming the paid session `sess_g`, whose
`metadata.uid` ("ghost") matches no user of `dbEx`, does NOT fail with any
UserNotFound error: it succeeds with 200 `{ok: true, isPremium: true}`
although afterwards there is still no user "ghost" whose premium state the
response could be reflecting (lines 638-660 update by `uid` without upsert
and answer a hard-coded `isPremium: true`). -/
theorem confirm_unknown_uid_counterexample :
    findUser dbEx "ghost" = none ∧
    (paymentsConfirm 0 retrieveGhost dbEx "sess_g").snd = Resp.confirmOk true true ∧
    ((paymentsConfirm 0 retrieveGhost dbEx "sess_g").snd).statusCode = 200 ∧
    findUser ((paymentsConfirm 0 retrieveGhost dbEx "sess_g").fst) "ghost" = none := by
  decide

/-- C4 (amended): when the session's `metadata.uid` matches no user,
`/payments/confirm` does not fail — it responds success with the
hard-coded body `{ok: true, isPremium: true}` — and the users collection
is left unchanged (the `updateOne` by `uid` matches nothing); only the
payments upsert can write. -/
theorem confirm_unknown_uid_still_succeeds (now : Nat)
    (retrieve : String → Except String StripeSession) (s : DB) (sid : String)
    (sess : StripeSession) (uid : String)
    (hready : s.dbReady = true) (hsid : sid ≠ "")
    (hret : retrieve sid = Except.ok sess)
    (hpaid : sess.payment_status = "paid")
    (huid : sess.metadata_uid = some uid) (hne : uid ≠ "")
    (hmiss : findUser s uid = none) :
    (paymentsConfirm now retrieve s sid).snd = Resp.confirmOk true true ∧
    ((paymentsConfirm now retrieve s sid).fst).users = s.users := by
  have hu : updateFirst (fun u => u.uid == uid) (setPremium now) s.users = s.users :=
    updateFirst_no_match _ _ _ hmiss
  simp [paymentsConfirm, hready, hsid, hret, hpaid, huid, hne,
        confirmPaymentsUpsert_users, hu]

/-- C4 witness: the amended behaviour at the concrete `sess_g` request. -/
theorem confirm_unknown_uid_still_succeeds_witness :
    (paymentsConfirm 0 retrieveGhost dbEx "sess_g").snd = Resp.confirmOk true true ∧
    ((paymentsConfirm 0 retrieveGhost dbEx "sess_g").fst).users = dbEx.users :=
  confirm_unknown_uid_still_succeeds 0 retrieveGhost dbEx "sess_g" sessGhost "ghost"
    (by decide) (by decide) rfl rfl rfl (by decide) (by decide)

/-! ## C9 — /create-checkout-session preconditions -/

/-- C9: with the store ready and `uid`/`email` supplied, the
`/create-checkout-session` handler (1) responds 404 and creates no
provider session when the user is unknown, (2) responds 400 and creates no
provider session when the user is already premium, and (3) otherwise
forwards a creation request whose metadata carries exactly the supplied
`uid` and `email` and responds with the created session's url. -/
theorem create_checkout_session_cases (s : DB)
    (create : SessionCreateParams → Except String CreatedSession)
    (uid email clientUrl : String) (cs : CreatedSession)
    (hready : s.dbReady = true) (hu : uid ≠ "") (he : email ≠ "") :
    (findUser s uid = none →
      createCheckoutSession s create uid email clientUrl =
        (s, Resp.error 404 "User not found. Upsert first.")) ∧
    (∀ user, findUser s uid = some user → user.isPremium = true →
      createCheckoutSession s create uid email clientUrl =
        (s, Resp.error 400 "Already premium")) ∧
    (∀ user, findUser s uid = some user → user.isPremium = false →
      create (mkCheckoutParams uid email clientUrl) = Except.ok cs →
      createCheckoutSession s create uid email clientUrl =
        ({ s with providerSessions :=
            s.providerSessions ++ [mkCheckoutParams uid email clientUrl] },
         Resp.checkoutUrl cs.url) ∧
      (mkCheckoutParams uid email clientUrl).metadata_uid = uid ∧
      (mkCheckoutParams uid email clientUrl).metadata_email = email) := by
  refine ⟨?_, ?_, ?_⟩
  · intro hnone
    simp [createCheckoutSession, hready, hu, he, hnone]
  · intro user hfound hprem
    simp [createCheckoutSession, hready, hu, he, hfound, hprem]
  · intro user hfound hprem hcreate
    refine ⟨?_, rfl, rfl⟩
    simp [createCheckoutSession, hready, hu, he, hfound, hprem, hcreate]

/-- C9 witness: creating a session for the known non-premium user `u1`. -/
theorem create_checkout_session_cases_witness :
    createCheckoutSession dbEx createEx "u1" "email1" "http://localhost:5173" =
      ({ dbEx with providerSessions :=
          dbEx.providerSessions ++ [mkCheckoutParams "u1" "email1" "http://localhost:5173"] },
       Resp.checkoutUrl csEx.url) ∧
    (mkCheckoutParams "u1" "email1" "http://localhost:5173").metadata_uid = "u1" ∧
    (mkCheckoutParams "u1" "email1" "http://localhost:5173").metadata_email = "email1" :=
  (create_checkout_session_cases dbEx createEx "u1" "email1" "http://localhost:5173"
    csEx (by decide) (by decide) (by decide)).2.2 userEx (by decide) rfl rfl

/-! ## C10 — comment deletion authorization -/

/-- C10: for a `DELETE /comments/:id` request with a requester `uid` and a
valid comment id, the handler (1) responds 404 leaving the state unchanged
when no comment has that id, (2) responds 403 leaving the state unchanged
when the stored comment's `uid` differs from the requester's, and
(3) removes exactly the stored comment (first match by id) only when the
uids agree. -/
theorem comments_delete_owner_only (s : DB) (uid idParam oid : String)
    (hu : uid ≠ "") (hoid : safeObjectId idParam = some oid) :
    (s.comments.find? (fun c => c.id == oid) = none →
      commentsDelete s uid idParam = (s, Resp.error 404 "Not found")) ∧
    (∀ c, s.comments.find? (fun c2 => c2.id == oid) = some c → c.uid ≠ uid →
      commentsDelete s uid idParam = (s, Resp.error 403 "Forbidden")) ∧
    (∀ c, s.comments.find? (fun c2 => c2.id == oid) = some c → c.uid = uid →
      commentsDelete s uid idParam =
        ({ s with comments := deleteFirst (fun c2 => c2.id == oid) s.comments },
         Resp.success)) := by
  refine ⟨?_, ?_, ?_⟩
  · intro hnone
    simp [commentsDelete, hu, hoid, hnone]
  · intro c hfound hne
    simp [commentsDelete, hu, hoid, hfound, hne]
  · intro c hfound heq
    simp [commentsDelete, hu, hoid, hfound, heq]

/-- A stored comment owned by `u1` under a valid 24-hex ObjectId. -/
def commentEx : Comment :=
  { id := "aaaaaaaaaaaaaaaaaaaaaaaa", lessonId := "l1", uid := "u1",
    text := "hello", createdAt := 0 }

/-- The store `dbEx` with the single comment `commentEx`. -/
def dbWithComment : DB :=
  { dbEx with comments := [commentEx] }

/-- C10 witness: the owner deletes their comment; the comment is removed. -/
theorem comments_delete_owner_only_witness :
    commentsDelete dbWithComment "u1" "aaaaaaaaaaaaaaaaaaaaaaaa" =
      ({ dbWithComment with comments := deleteFirst (fun c2 => c2.id == "aaaaaaaaaaaaaaaaaaaaaaaa") dbWithComment.comments },
       Resp.success) :=
  (comments_delete_owner_only dbWithComment "u1" "aaaaaaaaaaaaaaaaaaaaaaaa"
    "aaaaaaaaaaaaaaaaaaaaaaaa" (by decide) (by decide)).2.2 commentEx (by decide) rfl

/-! ## C7 — isPremium never reverts -/

/-- Shape of the users collection after `POST /users/upsert`: unchanged,
or a `$set` on the first match, or an insert at the end. -/
theorem usersUpsert_users (now : Nat) (s : DB) (uid2 email name photoURL : String) :
    ((usersUpsert now s uid2 email name photoURL).fst).users = s.users ∨
    ((usersUpsert now s uid2 email name photoURL).fst).users =
      updateFirst (fun u => u.uid == uid2) (setProfile now uid2 email name photoURL) s.users ∨
    ∃ nu : User, ((usersUpsert now s uid2 email name photoURL).fst).users =
      s.users ++ [nu] := by
  unfold usersUpsert
  split
  · exact Or.inl rfl
  split
  · exact Or.inl rfl
  split
  · exact Or.inr (Or.inl rfl)
  · exact Or.inr (Or.inr ⟨_, rfl⟩)

/-- Shape of the users collection after `POST /webhook`: unchanged or a
premium `$set` on the first match for some uid. -/
theorem webhookStep_users (now : Nat) (s : DB) (r : Except String StripeEvent) :
    ((webhookStep now s r).fst).users = s.users ∨
    ∃ uid2, ((webhookStep now s r).fst).users =
      updateFirst (fun u => u.uid == uid2) (setPremium now) s.users := by
  unfold webhookStep
  split
  · exact Or.inl rfl
  split
  · exact Or.inl rfl
  split
  · unfold webhookApply
    split
    · exact Or.inl rfl
    split
    · exact Or.inl rfl
    · exact Or.inr ⟨_, rfl⟩
  · exact Or.inl rfl

/-- Shape of the users collection after `POST /payments/confirm`:
unchanged or a premium `$set` on the first match for some uid. -/
theorem paymentsConfirm_users (now : Nat)
    (retrieve : String → Except String StripeSession) (s : DB) (sid : String) :
    ((paymentsConfirm now retrieve s sid).fst).users = s.users ∨
    ∃ uid2, ((paymentsConfirm now retrieve s sid).fst).users =
      updateFirst (fun u => u.uid == uid2) (setPremium now) s.users := by
  unfold paymentsConfirm
  split
  · exact Or.inl rfl
  split
  · exact Or.inl rfl
  split
  · exact Or.inl rfl
  · split
    · exact Or.inl rfl
    · split
      · exact Or.inl rfl
      · split
        · exact Or.inl rfl
        · exact Or.inr ⟨_, by rw [confirmPaymentsUpsert_users]⟩

/-- Shape of the users collection after `PATCH /admin/users/role`:
unchanged or a role `$set` on the first match. -/
theorem adminUsersRole_users (now : Nat) (s : DB) (uid2 role : String) :
    ((adminUsersRole now s uid2 role).fst).users = s.users ∨
    ((adminUsersRole now s uid2 role).fst).users =
      updateFirst (fun u => u.uid == uid2) (setRole now role) s.users := by
  unfold adminUsersRole
  split
  · exact Or.inl rfl
  split
  · exact Or.inl rfl
  · exact Or.inr rfl

/-- A single operation (upsert, webhook, confirm, role change) never takes
an existing user's `isPremium` from true back to false. -/
theorem premiumHolds_stepOp (s : DB) (uid : String) (op : Op)
    (h : premiumHolds s uid) : premiumHolds (stepOp s op) uid := by
  cases op with
  | upsert now uid2 email name photoURL =>
    rcases usersUpsert_users now s uid2 email name photoURL with h1 | h1 | ⟨nu, h1⟩
    · show premiumIn ((usersUpsert now s uid2 email name photoURL).fst).users uid
      rw [h1]; exact h
    · show premiumIn ((usersUpsert now s uid2 email name photoURL).fst).users uid
      rw [h1]
      refine premiumIn_updateFirst (fun u => u.uid == uid2)
        (setProfile now uid2 email name photoURL) uid ?_ (fun u _ hp => hp) s.users h
      intro u hq
      have h2 : u.uid = uid2 := beq_iff_eq.mp hq
      simp [setProfile, h2]
    · show premiumIn ((usersUpsert now s uid2 email name photoURL).fst).users uid
      rw [h1]; exact premiumIn_append _ _ uid h
  | webhook now r =>
    rcases webhookStep_users now s r with h1 | ⟨uid2, h1⟩
    · show premiumIn ((webhookStep now s r).fst).users uid
      rw [h1]; exact h
    · show premiumIn ((webhookStep now s r).fst).users uid
      rw [h1]
      exact premiumIn_updateFirst (fun u => u.uid == uid2) (setPremium now) uid
        (fun u _ => rfl) (fun u _ _ => rfl) s.users h
  | confirm now retrieve sid =>
    rcases paymentsConfirm_users now retrieve s sid with h1 | ⟨uid2, h1⟩
    · show premiumIn ((paymentsConfirm now retrieve s sid).fst).users uid
      rw [h1]; exact h
    · show premiumIn ((paymentsConfirm now retrieve s sid).fst).users uid
      rw [h1]
      exact premiumIn_updateFirst (fun u => u.uid == uid2) (setPremium now) uid
        (fun u _ => rfl) (fun u _ _ => rfl) s.users h
  | roleChange now uid2 role =>
    rcases adminUsersRole_users now s uid2 role with h1 | h1
    · show premiumIn ((adminUsersRole now s uid2 role).fst).users uid
      rw [h1]; exact h
    · show premiumIn ((adminUsersRole now s uid2 role).fst).users uid
      rw [h1]
      exact premiumIn_updateFirst (fun u => u.uid == uid2) (setRole now role) uid
        (fun u _ => rfl) (fun u _ hp => hp) s.users h

/-- C7: over every sequence of system operations — user upsert, webhook
delivery, client confirmation, admin role change — a user who is premium
stays premium: `isPremium` only ever moves false→true (the webhook and
confirm `$set` it to true; upsert `$setOnInsert`s false only on newly
inserted users; role change never touches it), so no such operation
reverts it.  Admin user deletion, the one exception the claim names, is
not among these operations. -/
theorem isPremium_monotone_over_ops (ops : List Op) (s : DB) (uid : String)
    (h : premiumHolds s uid) : premiumHolds (runOps s ops) uid := by
  induction ops generalizing s with
  | nil => exact h
  | cons op rest ih => exact ih (stepOp s op) (premiumHolds_stepOp s uid op h)

/-- The user `u1` already premium. -/
def userPrem : User :=
  { userEx with isPremium := true }

/-- A ready store holding the premium user `u1`. -/
def dbPrem : DB :=
  { dbEx with users := [userPrem] }

/-- A mixed concrete workload: profile re-upsert, role change, duplicate
webhook, client confirmation, and an upsert creating a second user. -/
def opsEx : List Op :=
  [Op.upsert 1 "u1" "email2" "Name" "", Op.roleChange 2 "u1" "admin",
   Op.webhook 3 (Except.ok evEx), Op.confirm 4 retrieveEx "sess_123",
   Op.upsert 5 "u2" "email3" "" ""]

/-- C7 witness: after the concrete workload, `u1` is still premium. -/
theorem isPremium_monotone_over_ops_witness :
    premiumHolds (runOps dbPrem opsEx) "u1" :=
  isPremium_monotone_over_ops opsEx dbPrem "u1" ⟨userPrem, by decide, rfl⟩

end DLL
